import Mathlib

/-!
Shallow embedding of the selection-and-manipulation core of the `l3d`
scene editor (`src/main.js`, class `WebApp3D`), covering:

* the pointer-down picking protocol `onPointerDown` (drag guard, light-helper
  priority pass with `.light` back-reference, object pass with ancestor-walk
  root resolution, detach on total miss);
* the per-frame billboard orientation update `updateBillboards`
  (XZ-projected `atan2` yaw with the drag/rotate suppression rule);
* the light colour operations `updateSelectedLightColor` and
  `onGizmoObjectChange`.

Scene entities are identified by natural numbers.  The scene graph is a
parent map `Nat → Option Nat` with a distinguished scene-root id.  The ray
intersection test (`THREE.Raycaster.intersectObjects`, external to the
repository) is abstracted as an oracle `List Nat → List Nat` mapping a
candidate set to its nearest-first ordered hit list, exactly the contract
the code relies on.  The gizmo (`TransformControls`, also external) is
modelled from the spec where noted.
-/

/-- Gizmo transform mode, the three string values accepted by
`TransformControls.setMode` in the source. -/
inductive GizmoMode : Type
  | translate
  | rotate
  | scale
deriving DecidableEq

/-- State of the `WebApp3D` instance, restricted to the fields that the
selection and billboard code reads or writes.

`objects`, `lightHelpers`, `billboardTokens` are the three registry lists;
`light` is the helper's `.light` back-reference (absent = `none`);
`isLight` models `isPointLight || isSpotLight`; `color` stores each light's
colour value; `parent` / `sceneId` give the scene graph; `object` is
`transformControls.object` (the current selection), `dragging` and `mode`
the gizmo flags; `camX`/`camY`/`camZ` the camera position and
`posX`/`posY`/`posZ`/`rotY` the per-entity transform components used by
`updateBillboards`. -/
structure AppState where
  objects : List Nat
  lightHelpers : List Nat
  billboardTokens : List Nat
  light : Nat → Option Nat
  isLight : Nat → Bool
  color : Nat → Nat
  parent : Nat → Option Nat
  sceneId : Nat
  object : Option Nat
  dragging : Bool
  mode : GizmoMode
  camX : ℝ
  camY : ℝ
  camZ : ℝ
  posX : Nat → ℝ
  posY : Nat → ℝ
  posZ : Nat → ℝ
  rotY : Nat → ℝ

/-- Modelled from the spec: `transformControls.attach(root)` is implemented
in the external `TransformControls` library, not under `src/`; per spec
§4.3 it sets the current selection to `root`, unconditionally replacing any
prior selection. -/
def attach (st : AppState) (root : Nat) : AppState :=
  { st with object := some root }

/-- Modelled from the spec: `transformControls.detach()` is implemented in
the external `TransformControls` library, not under `src/`; per spec §4.3
it sets the current selection to none. -/
def detach (st : AppState) : AppState :=
  { st with object := none }

/-- The ancestor-walk loop of `onPointerDown` (src/main.js lines 591-597):

`while (s.parent && s.parent !== this.scene) { if (this.objects.includes(s.parent)) { s = s.parent; break; } s = s.parent; }`

One unit of fuel is spent per visited node; with fuel at least the depth of
the walked chain the result agrees with the unbounded JS loop (the JS scene
graph is a finite tree, so that loop always terminates). -/
def resolveRoot (objects : List Nat) (parent : Nat → Option Nat) (sceneId : Nat) :
    Nat → Nat → Nat
  | 0, s => s
  | fuel + 1, s =>
    match parent s with
    | none => s
    | some p =>
      if p = sceneId then s
      else if p ∈ objects then p
      else resolveRoot objects parent sceneId fuel p

/-- `chainUp parent x cs r` says the parent chain above `x` is exactly
`cs` followed by `r`: `parent x` is the head of `cs` (or `r` when `cs` is
empty), and so on up to `r`. -/
def chainUp (parent : Nat → Option Nat) : Nat → List Nat → Nat → Prop
  | x, [], r => parent x = some r
  | x, c :: cs, r => parent x = some c ∧ chainUp parent c cs r

/-- The object-set phase of `onPointerDown` (src/main.js lines 587-605):
ray-test the `objects` registry (recursively); on a hit, walk ancestors to
a registered root and attach it when found (silently ignoring the hit
otherwise); on no hit, detach. -/
def meshPhase (st : AppState) (ray : List Nat → List Nat) (fuel : Nat) : AppState :=
  match (ray st.objects).head? with
  | none => detach st
  | some hit =>
    let root := resolveRoot st.objects st.parent st.sceneId fuel hit
    if root ∈ st.objects then attach st root else st

/-- `WebApp3D.onPointerDown` (src/main.js lines 566-606).  `ray` is the
raycast oracle fixed by the event's pointer coordinates and the camera: it
maps a candidate set to the nearest-first list of hit entities.  The two
`intersectObjects` calls of the source are `ray st.lightHelpers` and
`ray st.objects`.  A helper hit whose `.light` back-reference is absent
falls through to the object phase, exactly as the source's nested `if`
does. -/
def onPointerDown (st : AppState) (ray : List Nat → List Nat) (fuel : Nat) : AppState :=
  if st.dragging then st
  else
    match (ray st.lightHelpers).head? with
    | some h =>
      match st.light h with
      | some l => attach st l
      | none => meshPhase st ray fuel
    | none => meshPhase st ray fuel

/-- `WebApp3D.updateSelectedLightColor` (src/main.js lines 467-472): if the
gizmo's current object is a light, set that light's colour to the picker
value; otherwise do nothing.  The colour store itself (`THREE.Color.set`)
is modelled from the spec as a per-entity value map. -/
def updateSelectedLightColor (st : AppState) (value : Nat) : AppState :=
  match st.object with
  | none => st
  | some s =>
    if st.isLight s then
      { st with color := fun i => if i = s then value else st.color i }
    else st

/-- `WebApp3D.onGizmoObjectChange` (src/main.js lines 475-487), read side:
when the current object is a light the panel is shown and the colour picker
is synchronised to the light's colour (returned as `some`); otherwise the
panel is hidden (`none`).  The DOM panel itself is external; the returned
option models what the user-facing read of the selection's colour yields. -/
def onGizmoObjectChange (st : AppState) : Option Nat :=
  match st.object with
  | none => none
  | some s => if st.isLight s then some (st.color s) else none

/-- Two-argument arctangent with the JavaScript `Math.atan2(y, x)`
convention (range (-π, π], `atan2 0 0 = 0` as the spec's degenerate
default). -/
noncomputable def atan2 (y x : ℝ) : ℝ :=
  if 0 < x then Real.arctan (y / x)
  else if x < 0 then
    (if 0 ≤ y then Real.arctan (y / x) + Real.pi
     else Real.arctan (y / x) - Real.pi)
  else
    (if 0 < y then Real.pi / 2
     else if y < 0 then -(Real.pi / 2)
     else 0)

/-- The yaw computed for one token in `WebApp3D.updateBillboards`
(src/main.js lines 629-631): project token and camera onto the XZ plane,
subtract (`tempVec3 = tokenXZ - cameraTargetVec`), then
`atan2(tempVec3.x, tempVec3.z) + π`.  The camera's Y is ignored. -/
noncomputable def tokenYaw (st : AppState) (t : Nat) : ℝ :=
  atan2 (st.posX t - st.camX) (st.posZ t - st.camZ) + Real.pi

/-- The suppression test of `WebApp3D.updateBillboards` (src/main.js lines
623-627): skip a token exactly when the gizmo is mid-drag, its object is
this token, and its mode is rotate. -/
def billboardSkip (st : AppState) (t : Nat) : Bool :=
  st.dragging && decide (st.object = some t) && decide (st.mode = GizmoMode.rotate)

/-- The token loop of `WebApp3D.updateBillboards` (src/main.js lines
622-634): fold over `billboardTokens`, writing each non-skipped token's
Y-rotation to its yaw.  The loop reads only fixed state (camera, positions,
gizmo flags) and writes only `rotY`, so it is expressed as a transformer of
the `rotY` map. -/
noncomputable def updateTokens (st : AppState) : List Nat → (Nat → ℝ) → (Nat → ℝ)
  | [], r => r
  | t :: ts, r =>
    if billboardSkip st t then updateTokens st ts r
    else updateTokens st ts (fun i => if i = t then tokenYaw st t else r i)

/-- `WebApp3D.updateBillboards` (src/main.js lines 614-635). -/
noncomputable def updateBillboards (st : AppState) : AppState :=
  { st with rotY := updateTokens st st.billboardTokens st.rotY }

/-- Concrete scene graph for witnesses: entity 30 is a grandchild mesh of
the registered model root 40 through intermediate node 31; entity 50 is a
stray top-level entity; the scene root has id 1. -/
def parentW : Nat → Option Nat
  | 30 => some 31
  | 31 => some 40
  | 40 => some 1
  | 50 => some 1
  | _ => none

/-- Concrete application state for witnesses: one registered model root 40,
one registered light helper 10 back-referencing light 7, two billboard
tokens 0 and 1 at the origin, camera at (0, 1, 5), nothing selected, no
drag in progress. -/
def baseState : AppState where
  objects := [40]
  lightHelpers := [10]
  billboardTokens := [0, 1]
  light := fun i => if i = 10 then some 7 else none
  isLight := fun i => decide (i = 7)
  color := fun _ => 0
  parent := parentW
  sceneId := 1
  object := none
  dragging := false
  mode := GizmoMode.translate
  camX := 0
  camY := 1
  camZ := 5
  posX := fun _ => 0
  posY := fun _ => 0
  posZ := fun _ => 0
  rotY := fun _ => 0

/-- Concrete state for the billboard suppression witness: the base state
mid-drag in rotate mode with billboard token 0 as the gizmo object. -/
def dragRotateState : AppState :=
  { baseState with dragging := true, object := some 0, mode := GizmoMode.rotate }

/-- Ray oracle hitting both candidate sets: helper 10 and model root 40. -/
def rayBoth : List Nat → List Nat :=
  fun s => if s = [10] then [10] else if s = [40] then [40] else []

/-- Ray oracle hitting nothing. -/
def rayNone : List Nat → List Nat := fun _ => []

/-- Ray oracle missing the helpers and hitting the nested child mesh 30 of
the registered model root 40. -/
def rayChild : List Nat → List Nat :=
  fun s => if s = [40] then [30] else []

/-- Ray oracle missing the helpers and hitting the stray entity 50, whose
ancestor walk reaches the scene root without meeting a registered root. -/
def rayStray : List Nat → List Nat :=
  fun s => if s = [40] then [50] else []

/-- Ray oracle whose nearest helper-set hit is entity 11, a sub-object
carrying no `.light` back-reference, and which misses the objects set. -/
def rayHelperSub : List Nat → List Nat :=
  fun s => if s = [10] then [11] else []

/-- Pointwise description of the billboard token loop: a token's rotY
becomes its yaw exactly when it occurs in the processed list and is not
suppressed; otherwise it keeps its previous value. -/
theorem updateTokens_apply (st : AppState) (ts : List Nat) :
    ∀ (r : Nat → ℝ) (i : Nat),
      updateTokens st ts r i =
        if i ∈ ts ∧ billboardSkip st i = false then tokenYaw st i else r i := by
  induction ts with
  | nil => intro r i; simp [updateTokens]
  | cons t ts ih =>
    intro r i
    by_cases hsk : billboardSkip st t = true
    · rw [updateTokens, if_pos hsk, ih]
      by_cases hit : i = t
      · subst hit
        simp [hsk]
      · simp [hit]
    · rw [updateTokens, if_neg hsk, ih]
      by_cases hit : i = t
      · subst hit
        have hf : billboardSkip st i = false := by
          cases hb : billboardSkip st i
          · rfl
          · exact absurd hb hsk
        simp [hf]
      · by_cases hmem : i ∈ ts
        · simp [hmem, hit]
        · simp [hmem, hit]

/-- Pointwise description of `updateBillboards` on the rotY map. -/
theorem updateBillboards_rotY (st : AppState) (i : Nat) :
    (updateBillboards st).rotY i =
      if i ∈ st.billboardTokens ∧ billboardSkip st i = false then tokenYaw st i
      else st.rotY i :=
  updateTokens_apply st st.billboardTokens st.rotY i

/-- Value of `atan2` on the negative x-axis with zero ordinate: π, as in
JavaScript's Math.atan2. -/
theorem atan2_zero_neg (x : ℝ) (hx : x < 0) : atan2 0 x = Real.pi := by
  unfold atan2
  rw [if_neg (by linarith), if_pos hx, if_pos (le_refl (0 : ℝ)), zero_div,
    Real.arctan_zero, zero_add]

/-- The ancestor walk, started at the bottom of a chain whose interior
nodes are unregistered non-scene nodes and whose top `r` is a registered
non-scene root, returns `r`, given fuel at least the chain length. -/
theorem resolveRoot_chain (objects : List Nat) (parent : Nat → Option Nat)
    (sceneId : Nat) (r : Nat) (hr : r ∈ objects) (hrs : r ≠ sceneId)
    (cs : List Nat) :
    ∀ (x : Nat) (fuel : Nat),
      chainUp parent x cs r →
      (∀ c ∈ cs, c ∉ objects ∧ c ≠ sceneId) →
      cs.length + 1 ≤ fuel →
      resolveRoot objects parent sceneId fuel x = r := by
  induction cs with
  | nil =>
    intro x fuel hch _ hf
    obtain ⟨f, rfl⟩ : ∃ f, fuel = f + 1 := ⟨fuel - 1, by omega⟩
    have hpx : parent x = some r := hch
    simp only [resolveRoot, hpx]
    rw [if_neg hrs, if_pos hr]
  | cons c cs ih =>
    intro x fuel hch hcs hf
    obtain ⟨f, rfl⟩ : ∃ f, fuel = f + 1 := ⟨fuel - 1, by simp at hf; omega⟩
    obtain ⟨hpx, hch2⟩ := hch
    have hc := hcs c (List.mem_cons_self c cs)
    simp only [resolveRoot, hpx]
    rw [if_neg hc.2, if_neg hc.1]
    exact ih c f hch2 (fun d hd => hcs d (List.mem_cons_of_mem c hd))
      (by simp at hf ⊢; omega)

/-- Claim C1: on a pointer-down (outside a drag) whose ray hits the light
helper set, with the nearest helper hit carrying a `.light` back-reference
to light `l`, and whose ray also hits the objects set, the handler attaches
`l` (the light, not the object) and performs nothing else: the resulting
state is exactly `attach st l`. -/
theorem pointerDown_helper_priority (st : AppState) (ray : List Nat → List Nat)
    (fuel : Nat) (h l : Nat)
    (hd : st.dragging = false)
    (hh : (ray st.lightHelpers).head? = some h)
    (hl : st.light h = some l)
    (hobj : ray st.objects ≠ []) :
    onPointerDown st ray fuel = attach st l ∧
    (onPointerDown st ray fuel).object = some l := by
  have hmain : onPointerDown st ray fuel = attach st l := by
    unfold onPointerDown
    rw [hd]
    simp only [Bool.false_eq_true, if_false, hh, hl]
  exact ⟨hmain, by rw [hmain]; rfl⟩

/-- Witness for C1 at the concrete base state with a ray hitting helper 10
(back-reference to light 7) as well as the registered model root 40. -/
theorem pointerDown_helper_priority_witness :
    baseState.dragging = false ∧
    (rayBoth baseState.lightHelpers).head? = some 10 ∧
    baseState.light 10 = some 7 ∧
    rayBoth baseState.objects ≠ [] ∧
    (onPointerDown baseState rayBoth 5 = attach baseState 7 ∧
      (onPointerDown baseState rayBoth 5).object = some 7) :=
  ⟨rfl, by decide, by decide, by decide,
    pointerDown_helper_priority baseState rayBoth 5 10 7 rfl (by decide)
      (by decide) (by decide)⟩

/-- Claim C5: on a pointer-down (outside a drag) whose ray hits neither the
light helper set nor the objects set, the handler calls detach and the
current selection becomes none. -/
theorem pointerDown_miss_detaches (st : AppState) (ray : List Nat → List Nat)
    (fuel : Nat)
    (hd : st.dragging = false)
    (hh : ray st.lightHelpers = [])
    (ho : ray st.objects = []) :
    onPointerDown st ray fuel = detach st ∧
    (onPointerDown st ray fuel).object = none := by
  have hmain : onPointerDown st ray fuel = detach st := by
    unfold onPointerDown meshPhase
    rw [hd]
    simp only [Bool.false_eq_true, if_false, hh, ho, List.head?_nil]
  exact ⟨hmain, by rw [hmain]; rfl⟩

/-- Witness for C5 at the concrete base state with the empty ray oracle. -/
theorem pointerDown_miss_detaches_witness :
    baseState.dragging = false ∧
    rayNone baseState.lightHelpers = [] ∧
    rayNone baseState.objects = [] ∧
    (onPointerDown baseState rayNone 5 = detach baseState ∧
      (onPointerDown baseState rayNone 5).object = none) :=
  ⟨rfl, rfl, rfl,
    pointerDown_miss_detaches baseState rayNone 5 rfl rfl rfl⟩

/-- Claim C6: on a pointer-down (outside a drag, helpers missed) whose ray
hits the objects set but whose ancestor walk resolves to an entity not in
the objects registry, the event is silently ignored: the handler returns
the state unchanged (no attach, no detach, selection and registries exactly
as before). -/
theorem pointerDown_unresolved_root_ignored (st : AppState)
    (ray : List Nat → List Nat) (fuel : Nat) (hit : Nat)
    (hd : st.dragging = false)
    (hh : ray st.lightHelpers = [])
    (hm : (ray st.objects).head? = some hit)
    (hun : resolveRoot st.objects st.parent st.sceneId fuel hit ∉ st.objects) :
    onPointerDown st ray fuel = st := by
  unfold onPointerDown meshPhase
  rw [hd]
  simp only [Bool.false_eq_true, if_false, hh, List.head?_nil, hm]
  rw [if_neg hun]

/-- Witness for C6: the ray hits the stray entity 50, whose parent is the
scene root, so the walk ends at 50 itself, which is unregistered; the
handler leaves the base state untouched. -/
theorem pointerDown_unresolved_root_ignored_witness :
    baseState.dragging = false ∧
    rayStray baseState.lightHelpers = [] ∧
    (rayStray baseState.objects).head? = some 50 ∧
    resolveRoot baseState.objects baseState.parent baseState.sceneId 5 50 ∉
      baseState.objects ∧
    onPointerDown baseState rayStray 5 = baseState :=
  ⟨rfl, by decide, by decide, by decide,
    pointerDown_unresolved_root_ignored baseState rayStray 5 50 rfl (by decide)
      (by decide) (by decide)⟩

/-- Claim C7: a pointer-down arriving while the gizmo is mid-drag is a
no-op: the handler returns the state unchanged, so the selection and every
registry list are exactly as before the event. -/
theorem pointerDown_during_drag_noop (st : AppState) (ray : List Nat → List Nat)
    (fuel : Nat) (hd : st.dragging = true) :
    onPointerDown st ray fuel = st := by
  unfold onPointerDown
  rw [hd]
  rfl

/-- Witness for C7 at the base state with the drag flag set, using the ray
oracle that hits both candidate sets (the hits are still ignored). -/
theorem pointerDown_during_drag_noop_witness :
    ({ baseState with dragging := true } : AppState).dragging = true ∧
    onPointerDown { baseState with dragging := true } rayBoth 5 =
      { baseState with dragging := true } :=
  ⟨rfl, pointerDown_during_drag_noop { baseState with dragging := true }
    rayBoth 5 rfl⟩

/-- Claim C8: attach(X) then attach(Y) leaves exactly Y as the current
selection (the second attach unconditionally replaces the first), and
detach after any attach leaves the current selection none. -/
theorem attach_replaces_detach_clears (st : AppState) (x y : Nat) :
    (attach (attach st x) y).object = some y ∧
    (detach (attach st x)).object = none :=
  ⟨rfl, rfl⟩

/-- Claim C9: after attaching light `lightA`, writing colour `c` through
the colour-write operation and then reading the selection's colour through
the panel-sync read returns exactly `c`. -/
theorem selected_light_color_roundtrip (st : AppState) (lightA c : Nat)
    (hl : st.isLight lightA = true) :
    onGizmoObjectChange (updateSelectedLightColor (attach st lightA) c) = some c := by
  unfold attach updateSelectedLightColor onGizmoObjectChange
  simp [hl]

/-- Witness for C9: light 7 of the base state, colour value 123. -/
theorem selected_light_color_roundtrip_witness :
    baseState.isLight 7 = true ∧
    onGizmoObjectChange (updateSelectedLightColor (attach baseState 7) 123) =
      some 123 :=
  ⟨by decide, selected_light_color_roundtrip baseState 7 123 (by decide)⟩

/-- Claim C10: when the nearest helper-set hit carries no `.light`
back-reference, the handler does not stop at the helper phase: it behaves
exactly as the object phase alone would, and if the objects ray-test also
misses, it detaches the current selection. -/
theorem pointerDown_helper_no_backref_falls_through (st : AppState)
    (ray : List Nat → List Nat) (fuel : Nat) (h : Nat)
    (hd : st.dragging = false)
    (hh : (ray st.lightHelpers).head? = some h)
    (hl : st.light h = none) :
    onPointerDown st ray fuel = meshPhase st ray fuel ∧
    (ray st.objects = [] → (onPointerDown st ray fuel).object = none) := by
  have hmain : onPointerDown st ray fuel = meshPhase st ray fuel := by
    unfold onPointerDown
    rw [hd]
    simp only [Bool.false_eq_true, if_false, hh, hl]
  refine ⟨hmain, fun ho => ?_⟩
  rw [hmain]
  unfold meshPhase
  rw [ho]
  rfl

/-- Witness for C10: the ray's nearest helper-set hit is sub-object 11,
which has no back-reference, and the objects set is missed, so the base
state's (empty) selection is detached to none. -/
theorem pointerDown_helper_no_backref_falls_through_witness :
    baseState.dragging = false ∧
    (rayHelperSub baseState.lightHelpers).head? = some 11 ∧
    baseState.light 11 = none ∧
    (onPointerDown baseState rayHelperSub 5 = meshPhase baseState rayHelperSub 5 ∧
      (rayHelperSub baseState.objects = [] →
        (onPointerDown baseState rayHelperSub 5).object = none)) :=
  ⟨rfl, by decide, by decide,
    pointerDown_helper_no_backref_falls_through baseState rayHelperSub 5 11 rfl
      (by decide) (by decide)⟩

/-- Claim C4: on a pointer-down (outside a drag, helpers missed) whose ray
hits an arbitrarily deep descendant `hit` of a registered model root `r` —
the parent chain above `hit` runs through unregistered non-scene nodes `cs`
up to `r` — the ancestor walk resolves to `r` and the handler attaches `r`,
never the hit child itself. -/
theorem pointerDown_nested_child_selects_root (st : AppState)
    (ray : List Nat → List Nat) (fuel : Nat) (hit r : Nat) (cs : List Nat)
    (hd : st.dragging = false)
    (hh : ray st.lightHelpers = [])
    (hm : (ray st.objects).head? = some hit)
    (hch : chainUp st.parent hit cs r)
    (hcs : ∀ c ∈ cs, c ∉ st.objects ∧ c ≠ st.sceneId)
    (hr : r ∈ st.objects) (hrs : r ≠ st.sceneId)
    (hf : cs.length + 1 ≤ fuel)
    (hne : hit ≠ r) :
    onPointerDown st ray fuel = attach st r ∧
    (onPointerDown st ray fuel).object = some r ∧
    (onPointerDown st ray fuel).object ≠ some hit := by
  have hres : resolveRoot st.objects st.parent st.sceneId fuel hit = r :=
    resolveRoot_chain st.objects st.parent st.sceneId r hr hrs cs hit fuel hch hcs hf
  have hmain : onPointerDown st ray fuel = attach st r := by
    unfold onPointerDown meshPhase
    rw [hd]
    simp only [Bool.false_eq_true, if_false, hh, List.head?_nil, hm, hres]
    rw [if_pos hr]
  refine ⟨hmain, by rw [hmain]; rfl, ?_⟩
  rw [hmain]
  simp [attach]
  exact fun h => hne h.symm

/-- Witness for C4: the ray hits grandchild mesh 30, whose chain runs
through the unregistered node 31 up to the registered model root 40; the
handler attaches 40, not 30. -/
theorem pointerDown_nested_child_selects_root_witness :
    baseState.dragging = false ∧
    rayChild baseState.lightHelpers = [] ∧
    (rayChild baseState.objects).head? = some 30 ∧
    chainUp baseState.parent 30 [31] 40 ∧
    (∀ c ∈ [31], c ∉ baseState.objects ∧ c ≠ baseState.sceneId) ∧
    40 ∈ baseState.objects ∧ (40 : Nat) ≠ baseState.sceneId ∧
    (30 : Nat) ≠ 40 ∧
    (onPointerDown baseState rayChild 5 = attach baseState 40 ∧
      (onPointerDown baseState rayChild 5).object = some 40 ∧
      (onPointerDown baseState rayChild 5).object ≠ some 30) :=
  ⟨rfl, by decide, by decide, ⟨rfl, rfl⟩, by decide, by decide, by decide,
    by decide,
    pointerDown_nested_child_selects_root baseState rayChild 5 30 40 [31] rfl
      (by decide) (by decide) ⟨rfl, rfl⟩ (by decide) (by decide) (by decide)
      (by decide) (by decide)⟩

/-- Counterexample to claim C2 as stated: with billboard token 0 at
position (0,0,0) and the camera at (0,1,5) (so h = 1 > 0), the billboard
update does not set the token's Y-rotation to π.  The claim's own formula
gives d = tokenXZ - camXZ = (0,-5), so the code computes
atan2(0,-5) + π = π + π = 2π, not atan2(0,5) + π = π. -/
theorem billboard_yaw_pi_refuted :
    (updateBillboards baseState).rotY 0 ≠ Real.pi := by
  rw [updateBillboards_rotY]
  rw [if_pos ⟨by decide, by decide⟩]
  unfold tokenYaw
  have h1 : baseState.posX 0 - baseState.camX = 0 := by
    show (0 : ℝ) - 0 = 0
    ring
  have h2 : baseState.posZ 0 - baseState.camZ = -5 := by
    show (0 : ℝ) - 5 = -5
    ring
  rw [h1, h2, atan2_zero_neg (-5) (by norm_num)]
  have hpi := Real.pi_pos
  intro hcontra
  linarith

/-- Claim C2, amended: for a billboard token at position (0,0,0) and the
camera at (0,h,5) for any h > 0, the yaw written by the billboard update is
atan2(0,-5) + π = 2π (equivalent to 0 modulo 2π: the token keeps facing +Z,
toward the camera), consistent with d = tokenXZ - camXZ = (0,-5),
yaw = atan2(d.x, d.z) + π. -/
theorem billboard_yaw_origin_front_camera (st : AppState) (T : Nat) (h : ℝ)
    (hT : T ∈ st.billboardTokens)
    (hx : st.posX T = 0) (hy : st.posY T = 0) (hz : st.posZ T = 0)
    (hcx : st.camX = 0) (hcy : st.camY = h) (hcz : st.camZ = 5)
    (hpos : 0 < h)
    (hd : st.dragging = false) :
    (updateBillboards st).rotY T = 2 * Real.pi := by
  rw [updateBillboards_rotY]
  have hskip : billboardSkip st T = false := by
    unfold billboardSkip
    rw [hd]
    rfl
  rw [if_pos ⟨hT, hskip⟩]
  unfold tokenYaw
  rw [hx, hz, hcx, hcz]
  have h1 : (0 : ℝ) - 0 = 0 := by ring
  have h2 : (0 : ℝ) - 5 = -5 := by ring
  rw [h1, h2, atan2_zero_neg (-5) (by norm_num)]
  ring

/-- Witness for the amended C2 at the base state (token 0 at the origin,
camera at (0,1,5)). -/
theorem billboard_yaw_origin_front_camera_witness :
    0 ∈ baseState.billboardTokens ∧
    baseState.posX 0 = 0 ∧ baseState.posY 0 = 0 ∧ baseState.posZ 0 = 0 ∧
    baseState.camX = 0 ∧ baseState.camY = 1 ∧ baseState.camZ = 5 ∧
    (0 : ℝ) < 1 ∧
    baseState.dragging = false ∧
    (updateBillboards baseState).rotY 0 = 2 * Real.pi :=
  ⟨by decide, rfl, rfl, rfl, rfl, rfl, rfl, by norm_num, rfl,
    billboard_yaw_origin_front_camera baseState 0 1 (by decide) rfl rfl rfl rfl
      rfl rfl (by norm_num) rfl⟩

/-- Claim C3: while the gizmo is mid-drag with current object T, the
per-frame billboard update (1) writes nothing to T's Y-rotation when the
mode is rotate, (2) still writes the yaw to every other registered
billboard token, and (3) still writes the yaw to T itself when the mode is
translate or scale. -/
theorem billboard_rotate_drag_suppression (st : AppState) (T : Nat)
    (hd : st.dragging = true) (ho : st.object = some T) :
    (st.mode = GizmoMode.rotate →
      (updateBillboards st).rotY T = st.rotY T) ∧
    (∀ U ∈ st.billboardTokens, U ≠ T →
      (updateBillboards st).rotY U = tokenYaw st U) ∧
    (∀ m : GizmoMode, m ≠ GizmoMode.rotate → T ∈ st.billboardTokens →
      (updateBillboards { st with mode := m }).rotY T =
        tokenYaw { st with mode := m } T) := by
  refine ⟨fun hm => ?_, fun U hU hUT => ?_, fun m hm hT => ?_⟩
  · rw [updateBillboards_rotY]
    have hskip : billboardSkip st T = true := by
      unfold billboardSkip
      rw [hd, ho, hm]
      simp
    rw [if_neg]
    intro hcontra
    rw [hskip] at hcontra
    exact absurd hcontra.2 (by simp)
  · rw [updateBillboards_rotY]
    have hskip : billboardSkip st U = false := by
      unfold billboardSkip
      rw [ho]
      have : ¬ (some T = some U) := fun hc => hUT (Option.some.inj hc).symm
      simp [this]
    rw [if_pos ⟨hU, hskip⟩]
  · rw [updateBillboards_rotY]
    have hskip : billboardSkip { st with mode := m } T = false := by
      unfold billboardSkip
      simp [hm]
    rw [if_pos ⟨hT, hskip⟩]

/-- Witness for C3: base state mid-drag in rotate mode with token 0 as the
gizmo object; token 1 is the other registered billboard token. -/
theorem billboard_rotate_drag_suppression_witness :
    dragRotateState.dragging = true ∧
    dragRotateState.object = some 0 ∧
    ((dragRotateState.mode = GizmoMode.rotate →
        (updateBillboards dragRotateState).rotY 0 = dragRotateState.rotY 0) ∧
      (∀ U ∈ dragRotateState.billboardTokens, U ≠ 0 →
        (updateBillboards dragRotateState).rotY U = tokenYaw dragRotateState U) ∧
      (∀ m : GizmoMode, m ≠ GizmoMode.rotate →
        0 ∈ dragRotateState.billboardTokens →
        (updateBillboards { dragRotateState with mode := m }).rotY 0 =
          tokenYaw { dragRotateState with mode := m } 0)) :=
  ⟨rfl, rfl, billboard_rotate_drag_suppression dragRotateState 0 rfl rfl⟩
